import Mathlib

/-!
Verification of the retry/error-translation layer and request pipeline of the
political-reasoner web service.

The Python source is shallowly embedded: raw text is `List Char`, Python
exceptions become `Except`, the random jitter draw of `random.uniform` and the
external API results become explicit oracle arguments, and `time.time()`
becomes an explicit `now` argument.  Definitions follow `app/utils.py`,
`app/reasoner.py` and `app/routes.py`.
-/

/-! ### Python string helpers

`pyIsSpace` covers the whitespace characters `str.split` splits on
(space, tab, newline, carriage return, vertical tab, form feed);
`pyCollapse` is `" ".join(text.split())`, `pyStrip` is `str.strip`,
`lowerL` is `str.lower` (ASCII, which covers every pattern the code matches),
and `occursIn p s` is the Python `p in s` substring test. -/

def pyIsSpace (c : Char) : Bool :=
  c = ' ' || c = '\t' || c = '\n' || c = '\r' || c = Char.ofNat 11 || c = Char.ofNat 12

def wordsAux : List Char → List Char → List (List Char)
  | acc, [] => if acc.isEmpty then [] else [acc.reverse]
  | acc, c :: cs =>
    if pyIsSpace c then
      if acc.isEmpty then wordsAux [] cs else acc.reverse :: wordsAux [] cs
    else wordsAux (c :: acc) cs

def pyWords (l : List Char) : List (List Char) := wordsAux [] l

def joinWords : List (List Char) → List Char
  | [] => []
  | [w] => w
  | w :: ws => w ++ ' ' :: joinWords ws

def pyCollapse (l : List Char) : List Char := joinWords (pyWords l)

def pyStrip (l : List Char) : List Char :=
  ((l.dropWhile pyIsSpace).reverse.dropWhile pyIsSpace).reverse

def lowerL (l : List Char) : List Char := l.map Char.toLower

def leadsWith : List Char → List Char → Bool
  | [], _ => true
  | _ :: _, [] => false
  | a :: as, b :: bs => a = b && leadsWith as bs

def occursIn (p : List Char) : List Char → Bool
  | [] => p.isEmpty
  | l@(_ :: cs) => leadsWith p l || occursIn p cs

/-! ### `utils.UserFriendlyError`

The custom exception type; `technical_message` defaults to the user message
at the raise sites that omit it. -/

structure UFErr where
  user_message : String
  technical_message : String
deriving DecidableEq, Repr

/-! ### `utils.parse_openai_error`

The error classifier: a first-match scan of the ordered `error_patterns`
table against the lowercased error string, then the HTTP status-code
substring checks on the raw string, then the generic fallback. -/

def quotaMessage : String :=
  "🚫 Kuota API OpenAI telah habis. Silakan hubungi administrator untuk mengisi ulang kuota."
def quotaSuggestion : String := "Coba lagi dalam beberapa saat atau hubungi tim teknis."
def rateLimitMessage : String :=
  "⏳ Terlalu banyak permintaan dalam waktu singkat. Mohon tunggu sebentar."
def rateLimitSuggestion : String := "Silakan coba lagi dalam 1-2 menit."
def invalidKeyMessage : String :=
  "🔑 Konfigurasi API tidak valid. Silakan hubungi administrator."
def invalidKeySuggestion : String := "Tim teknis perlu memeriksa pengaturan API."
def modelMessage : String := "🤖 Model AI tidak tersedia saat ini."
def modelSuggestion : String := "Coba lagi nanti atau hubungi support."
def contextLengthMessage : String := "📝 Teks yang dianalisis terlalu panjang."
def contextLengthSuggestion : String :=
  "Coba dengan teks yang lebih pendek (maksimal 5000 karakter)."
def serverErrorMessage : String := "🔧 Server OpenAI mengalami gangguan sementara."
def serverErrorSuggestion : String := "Silakan coba lagi dalam beberapa menit."
def timeoutMessage : String := "⏱️ Waktu analisis habis. Koneksi mungkin lambat."
def timeoutSuggestion : String := "Periksa koneksi internet dan coba lagi."
def networkMessage : String := "🌐 Masalah koneksi internet terdeteksi."
def networkSuggestion : String := "Periksa koneksi internet Anda dan coba lagi."
def fallbackMessage : String := "🤖 Sistem AI mengalami kendala teknis sementara."
def fallbackSuggestion : String :=
  "Silakan coba lagi dalam beberapa menit atau hubungi support jika masalah berlanjut."

def errorPatterns : List (List Char × String × String) :=
  [("insufficient_quota".data, quotaMessage, quotaSuggestion),
   ("rate_limit".data, rateLimitMessage, rateLimitSuggestion),
   ("invalid_api_key".data, invalidKeyMessage, invalidKeySuggestion),
   ("model_not_found".data, modelMessage, modelSuggestion),
   ("context_length_exceeded".data, contextLengthMessage, contextLengthSuggestion),
   ("server_error".data, serverErrorMessage, serverErrorSuggestion),
   ("timeout".data, timeoutMessage, timeoutSuggestion),
   ("network_error".data, networkMessage, networkSuggestion)]

def findPattern (e : List Char) : List (List Char × String × String) → Option (String × String)
  | [] => none
  | (p, m, s) :: rest => if occursIn p e then some (m, s) else findPattern e rest

def parse_openai_error (s : List Char) : String × String :=
  let errorLower := lowerL s
  match findPattern errorLower errorPatterns with
  | some r => r
  | none =>
    if occursIn "429".data s then (rateLimitMessage, rateLimitSuggestion)
    else if occursIn "500".data s || occursIn "502".data s || occursIn "503".data s then
      (serverErrorMessage, serverErrorSuggestion)
    else if occursIn "401".data s || occursIn "403".data s then
      (invalidKeyMessage, invalidKeySuggestion)
    else (fallbackMessage, fallbackSuggestion)

/-! ### `utils.retry_with_exponential_backoff`

The decorator, as the closure it builds around the wrapped operation.
`op k` is the outcome of the `k`-th invocation of the wrapped function
(`Except.error e` models `raise` of an exception whose `str` is `e`);
`js k` is the value drawn by `random.uniform(0, delay * 0.1)` on attempt `k`.
The trace records the final outcome, the number of invocations of `op`,
and the durations passed to `time.sleep`, in order. -/

def retryableKeywords : List (List Char) :=
  ["rate_limit".data, "429".data, "quota".data, "server_error".data,
   "500".data, "502".data, "503".data, "timeout".data]

def isRetryableError (errorMsg : List Char) : Bool :=
  retryableKeywords.any (fun k => occursIn k errorMsg)

instance exceptDecEq {ε α : Type} [DecidableEq ε] [DecidableEq α] :
    DecidableEq (Except ε α) := fun
  | Except.error e, Except.error e' => decidable_of_iff (e = e') (by simp)
  | Except.error _, Except.ok _ => isFalse (fun h => Except.noConfusion h)
  | Except.ok _, Except.error _ => isFalse (fun h => Except.noConfusion h)
  | Except.ok a, Except.ok a' => decidable_of_iff (a = a') (by simp)

structure RetryCfg where
  max_retries : Nat
  initial_delay : ℚ
  exponential_base : ℚ
  jitter : Bool
deriving DecidableEq, Repr

structure RetryTrace where
  result : Except UFErr String
  calls : Nat
  sleeps : List ℚ
deriving DecidableEq, Repr

def strOfLast : Option String → String
  | none => "None"
  | some e => e

def retryAux (cfg : RetryCfg) (op : Nat → Except String String) (js : Nat → ℚ) :
    Option String → Nat → ℚ → Nat → RetryTrace
  | lastExc, _attempt, _delay, 0 =>
    -- the `for` loop over `range(max_retries)` finished without returning:
    -- `raise UserFriendlyError(f"{user_msg} Sudah dicoba {max_retries} kali.", ...)`
    let s := strOfLast lastExc
    let parsed := parse_openai_error s.data
    ⟨Except.error ⟨parsed.1 ++ " Sudah dicoba " ++ toString cfg.max_retries ++ " kali.", s⟩,
      0, []⟩
  | _lastExc, attempt, delay, remaining + 1 =>
    match op attempt with
    | Except.ok v => ⟨Except.ok v, 1, []⟩
    | Except.error e =>
      let parsed := parse_openai_error e.data
      if isRetryableError (lowerL e.data) && decide (attempt < cfg.max_retries - 1) then
        let sleepTime := delay + (if cfg.jitter then js attempt else 0)
        let rest := retryAux cfg op js (some e) (attempt + 1) (delay * cfg.exponential_base)
          remaining
        ⟨rest.result, rest.calls + 1, sleepTime :: rest.sleeps⟩
      else
        -- non-retryable error or final attempt: `raise UserFriendlyError(user_msg, str(e))`
        ⟨Except.error ⟨parsed.1, e⟩, 1, []⟩

def retry_with_exponential_backoff (cfg : RetryCfg) (op : Nat → Except String String)
    (js : Nat → ℚ) : RetryTrace :=
  retryAux cfg op js none 0 cfg.initial_delay cfg.max_retries

/-! ### `utils.clean_text`

Whitespace collapsing, the 10-character minimum, the 10000-character cap with
the `"..."` ellipsis marker, and the final `.strip()`.  The technical message
of the too-short error interpolates the collapsed length. -/

def emptyTextMessage : String :=
  "📝 Teks tidak boleh kosong. Silakan masukkan teks untuk dianalisis."
def tooShortMessage : String :=
  "📝 Teks terlalu pendek. Minimal 10 karakter untuk analisis yang akurat."

def tooShortTechnical (n : Nat) : String :=
  "Text too short: " ++ toString n ++ " characters"

def clean_text (text : List Char) : Except UFErr (List Char) :=
  if text.isEmpty then Except.error ⟨emptyTextMessage, "Empty text input"⟩
  else if (pyCollapse text).length < 10 then
    Except.error ⟨tooShortMessage, tooShortTechnical (pyCollapse text).length⟩
  else if (pyCollapse text).length > 10000 then
    Except.ok (pyStrip ((pyCollapse text).take 10000 ++ "...".data))
  else Except.ok (pyStrip (pyCollapse text))

/-! ### `utils.format_analysis_response`

The input JSON object is modelled by its six schema keys plus `timestamp`,
each `Option`-valued to record key presence; JSON payload fields outside the
schema are ignored by the function and are not modelled.  A falsy input
(`None` or the empty dict, i.e. every modelled key absent) takes the
explicit-defaults branch.  `now` is the value of `time.time()`. -/

structure Sentiment where
  label : String
  score : ℚ
deriving DecidableEq, Repr

structure AnalysisData where
  sentiment : Option Sentiment
  topics : Option (List String)
  entities : Option (List String)
  key_issues : Option (List String)
  bias_detected : Option Bool
  public_impact : Option String
  timestamp : Option ℚ
deriving DecidableEq, Repr

def AnalysisData.isFalsy (d : AnalysisData) : Bool :=
  d.sentiment.isNone && d.topics.isNone && d.entities.isNone && d.key_issues.isNone &&
    d.bias_detected.isNone && d.public_impact.isNone && d.timestamp.isNone

structure FormattedAnalysis where
  sentiment : Sentiment
  topics : List String
  entities : List String
  key_issues : List String
  bias_detected : Bool
  public_impact : String
  timestamp : ℚ
  status : String
deriving DecidableEq, Repr

def neutralSentiment : Sentiment := ⟨"netral", 1/2⟩

def format_analysis_response (now : ℚ) (d : AnalysisData) : FormattedAnalysis :=
  if d.isFalsy then
    ⟨neutralSentiment, [], [], [], false, "medium", now, "success"⟩
  else
    ⟨d.sentiment.getD neutralSentiment, d.topics.getD [], d.entities.getD [],
      d.key_issues.getD [], d.bias_detected.getD false, d.public_impact.getD "medium",
      d.timestamp.getD now, "success"⟩

/-! ### `reasoner.PoliticalReasoner._extract_topics_from_text`

The fixed Indonesian keyword-to-topic table, scanned in order; a topic is kept
when any of its keywords occurs in the lowercased text; the result is capped
at 5 and defaults to `["umum"]`. -/

def politicalKeywords : List (String × List String) :=
  [("ekonomi", ["ekonomi", "keuangan", "investasi", "bisnis", "perdagangan", "inflasi",
      "pajak"]),
   ("politik", ["politik", "partai", "pemilu", "demokrasi", "kekuasaan", "pemerintah"]),
   ("sosial", ["sosial", "masyarakat", "rakyat", "warga", "komunitas", "budaya"]),
   ("hukum", ["hukum", "regulasi", "kebijakan", "peraturan", "undang-undang", "yuridis"]),
   ("teknologi", ["digital", "teknologi", "internet", "sistem", "platform", "cyber"]),
   ("pendidikan", ["pendidikan", "sekolah", "universitas", "mahasiswa", "guru",
      "kurikulum"]),
   ("kesehatan", ["kesehatan", "rumah sakit", "dokter", "obat", "vaksin", "medis"]),
   ("lingkungan", ["lingkungan", "iklim", "polusi", "hutan", "energi", "sampah"])]

def topicNames : List String := politicalKeywords.map Prod.fst

def topicMatches (text : List Char) (entry : String × List String) : Bool :=
  entry.2.any (fun kw => occursIn kw.data (lowerL text))

def foundTopics (text : List Char) : List String :=
  (politicalKeywords.filter (topicMatches text)).map Prod.fst

def extract_topics_from_text (text : List Char) : List String :=
  let found := foundTopics text
  if found.isEmpty then ["umum"] else found.take 5

/-! ### `routes.complete` (the `/complete-analysis` endpoint)

The four reasoner calls are oracles: `aRes`, `iRes`, `nRes`, `pRes` are the
dictionaries the corresponding call would return, modelled by their `error`
key and (for the insights result) the `critical_issues` key; the remaining
payload fields do not influence control flow and are elided from the response
model.  The output records the JSON response and which stages were invoked. -/

structure StageRes where
  error : Option String
  critical_issues : Option (List String)
deriving DecidableEq, Repr

inductive CompleteResp where
  | failure (code : Nat) (msg : String)
  | success (recommendations : Option StageRes)
deriving DecidableEq, Repr

structure CompleteOut where
  resp : CompleteResp
  analysisCalled : Bool
  insightsCalled : Bool
  narrativeCalled : Bool
  policyCalled : Bool
  policyIssueArg : Option String
deriving DecidableEq, Repr

def policyStageCondition (policyContext : Option String) (iRes : StageRes) : Bool :=
  (match policyContext with
   | none => false
   | some s => !s.isEmpty) &&
  (match iRes.critical_issues with
   | none => false
   | some l => !l.isEmpty)

def mainIssueOf (iRes : StageRes) : String :=
  match iRes.critical_issues with
  | some (i :: _) => if i.isEmpty then "General policy issue" else i
  | _ => "General policy issue"

def complete_analysis_route (text : Option String) (policyContext : Option String)
    (aRes iRes nRes pRes : StageRes) : CompleteOut :=
  match text with
  | none => ⟨CompleteResp.failure 400 "Text is required", false, false, false, false, none⟩
  | some t =>
    if t.isEmpty then
      ⟨CompleteResp.failure 400 "Text is required", false, false, false, false, none⟩
    else
      match aRes.error with
      | some e =>
        ⟨CompleteResp.failure 500 ("Analysis failed: " ++ e), true, false, false, false, none⟩
      | none =>
        match iRes.error with
        | some e =>
          ⟨CompleteResp.failure 500 ("Insights extraction failed: " ++ e),
            true, true, false, false, none⟩
        | none =>
          match nRes.error with
          | some e =>
            ⟨CompleteResp.failure 500 ("Narrative generation failed: " ++ e),
              true, true, true, false, none⟩
          | none =>
            if policyStageCondition policyContext iRes then
              match pRes.error with
              | some pe =>
                -- the source comment: do not fail the whole request if recommendations fail
                ⟨CompleteResp.success (some ⟨some pe, none⟩),
                  true, true, true, true, some (mainIssueOf iRes)⟩
              | none =>
                ⟨CompleteResp.success (some pRes),
                  true, true, true, true, some (mainIssueOf iRes)⟩
            else
              ⟨CompleteResp.success none, true, true, true, false, none⟩

/-! ### `utils.validate_input_data` (specialised to its three call sites)

`validate_input_data(data, fields)` raises a `UserFriendlyError` listing the
display names of the fields that are absent or falsy. -/

def missingFieldsMessage (names : List String) : String :=
  "📋 Field berikut harus diisi: " ++ String.intercalate ", " names

def validateTextField (text : String) : Except UFErr Unit :=
  if text.isEmpty then
    Except.error ⟨missingFieldsMessage ["Teks untuk analisis"], "Missing required fields: [text]"⟩
  else Except.ok ()

def validateQuestionField (question : String) : Except UFErr Unit :=
  if question.isEmpty then
    Except.error ⟨missingFieldsMessage ["Pertanyaan"], "Missing required fields: [question]"⟩
  else Except.ok ()

def validateContextIssueFields (context issue : String) : Except UFErr Unit :=
  let missing := (if context.isEmpty then ["Konteks"] else []) ++
    (if issue.isEmpty then ["Isu politik"] else [])
  if missing.isEmpty then Except.ok ()
  else Except.error ⟨missingFieldsMessage missing, "Missing required fields"⟩

/-! ### The public `PoliticalReasoner` operations (`app/reasoner.py`)

Each operation is a total function into `PyRes`, the returned dictionary
restricted to its `error` and `status` keys (the payload keys — `sentiment`,
`narrative`, `recommendations`, `response`, … — never influence which of the
two keys is present and are elided).  The protected OpenAI call is the oracle
`req : Except UFErr String`: by construction `retry_with_exponential_backoff`
either returns the validated content or raises a `UserFriendlyError`.
`jsonParses` tells whether `json.loads` succeeds on a response whose stripped
form starts with a brace, and `parsed` gives the resulting object, as its `error` and
`status` keys. -/

structure PyRes where
  error : Option String
  status : Option String
deriving DecidableEq, Repr

def errDict (msg : String) : PyRes := ⟨some msg, some "error"⟩

def startsWithBrace (s : List Char) : Bool :=
  match pyStrip s with
  | c :: _ => c = Char.ofNat 123
  | [] => false

def emptyResponseMessage : String :=
  "🤖 AI memberikan respons kosong. Silakan coba dengan teks yang berbeda."
def narrativeShortMessage : String :=
  "📝 Narasi yang dihasilkan terlalu pendek atau kosong. Silakan coba lagi."
def chatShortMessage : String :=
  "🤖 Respons AI terlalu pendek atau kosong. Silakan ajukan pertanyaan yang lebih spesifik."

/-- The method `PoliticalReasoner._structure_response`, restricted to its
`error` and `status` keys: the empty-response guard yields an error
dictionary, otherwise the heuristic dictionary is built, which carries
neither key. -/
def structureResponse (response : String) : PyRes :=
  if (pyStrip response.data).isEmpty then ⟨some emptyResponseMessage, some "error"⟩
  else ⟨none, none⟩

structure AnalyzeOracle where
  req : Except UFErr String
  jsonParses : Bool
deriving Repr

def analyze_political_text (text : String) (o : AnalyzeOracle) : PyRes :=
  match validateTextField text with
  | Except.error e => errDict e.user_message
  | Except.ok _ =>
    match clean_text text.data with
    | Except.error e => errDict e.user_message
    | Except.ok _cleaned =>
      match o.req with
      | Except.error e => errDict e.user_message
      | Except.ok response =>
        if startsWithBrace response.data then
          if o.jsonParses then ⟨none, some "success"⟩  -- `format_analysis_response(parsed)`
          else structureResponse response
        else structureResponse response

def analyzeFails (text : String) (o : AnalyzeOracle) : Bool :=
  !(validateTextField text).isOk || !(clean_text text.data).isOk ||
  match o.req with
  | Except.error _ => true
  | Except.ok response =>
    !(startsWithBrace response.data && o.jsonParses) && (pyStrip response.data).isEmpty

def generate_narrative (analysisError : Option String) (req : Except UFErr String) : PyRes :=
  match analysisError with
  | some e => errDict e
  | none =>
    match req with
    | Except.error e => errDict e.user_message
    | Except.ok response =>
      if response.isEmpty || (pyStrip response.data).length < 50 then
        errDict narrativeShortMessage
      else ⟨none, some "success"⟩

def narrativeFails (analysisError : Option String) (req : Except UFErr String) : Bool :=
  match analysisError with
  | some _ => true
  | none =>
    match req with
    | Except.error _ => true
    | Except.ok response => response.isEmpty || (pyStrip response.data).length < 50

structure PolicyOracle where
  req : Except UFErr String
  jsonParses : Bool
  parsed : PyRes
deriving Repr

def generate_policy_recommendations (context issue : String) (o : PolicyOracle) : PyRes :=
  match validateContextIssueFields context issue with
  | Except.error e => errDict e.user_message
  | Except.ok _ =>
    match clean_text context.data with
    | Except.error e => errDict e.user_message
    | Except.ok _ =>
      match clean_text issue.data with
      | Except.error e => errDict e.user_message
      | Except.ok _ =>
        match o.req with
        | Except.error e => errDict e.user_message
        | Except.ok response =>
          if startsWithBrace response.data && o.jsonParses then
            -- `parsed["status"] = "success"; return parsed`
            ⟨o.parsed.error, some "success"⟩
          else ⟨none, some "success"⟩  -- the hard-coded fallback structure

def policyFails (context issue : String) (o : PolicyOracle) : Bool :=
  !(validateContextIssueFields context issue).isOk || !(clean_text context.data).isOk ||
    !(clean_text issue.data).isOk || !o.req.isOk

def chat_response (question : String) (_chatContext : Option PyRes)
    (req : Except UFErr String) : PyRes :=
  -- `chatContext` only contributes an extra prompt message; it never changes
  -- the error/status shape of the result.
  match validateQuestionField question with
  | Except.error e => errDict e.user_message
  | Except.ok _ =>
    match clean_text question.data with
    | Except.error e => errDict e.user_message
    | Except.ok _ =>
      match req with
      | Except.error e => errDict e.user_message
      | Except.ok response =>
        if response.isEmpty || (pyStrip response.data).length < 10 then
          errDict chatShortMessage
        else ⟨none, some "success"⟩

def chatFails (question : String) (req : Except UFErr String) : Bool :=
  !(validateQuestionField question).isOk || !(clean_text question.data).isOk ||
  match req with
  | Except.error _ => true
  | Except.ok response => response.isEmpty || (pyStrip response.data).length < 10

/-! ### Helper lemmas on the string utilities -/

theorem leadsWith_map (f : Char → Char) :
    ∀ p s : List Char, leadsWith p s = true → leadsWith (p.map f) (s.map f) = true := by
  intro p
  induction p with
  | nil => intro s _; simp [List.map_nil, leadsWith]
  | cons a as ih =>
    intro s h
    cases s with
    | nil => simp [leadsWith] at h
    | cons b bs =>
      simp only [leadsWith, Bool.and_eq_true, decide_eq_true_eq] at h
      simp only [List.map_cons, leadsWith, Bool.and_eq_true, decide_eq_true_eq]
      exact ⟨congrArg f h.1, ih bs h.2⟩

theorem occursIn_map (f : Char → Char) :
    ∀ p s : List Char, occursIn p s = true → occursIn (p.map f) (s.map f) = true := by
  intro p s
  induction s with
  | nil =>
    intro h
    simp only [occursIn, List.isEmpty_eq_true] at h
    simp [h, occursIn]
  | cons c cs ih =>
    intro h
    simp only [occursIn, Bool.or_eq_true] at h
    simp only [List.map_cons, occursIn, Bool.or_eq_true]
    rcases h with h | h
    · exact Or.inl (leadsWith_map f p (c :: cs) h)
    · exact Or.inr (ih h)

theorem occursIn_lower_429 (s : List Char) (h : occursIn "429".data s = true) :
    occursIn "429".data (lowerL s) = true :=
  occursIn_map Char.toLower "429".data s h

theorem occursIn_lower_rate_limit (s : List Char)
    (h : occursIn "rate_limit".data s = true) :
    occursIn "rate_limit".data (lowerL s) = true :=
  occursIn_map Char.toLower "rate_limit".data s h

/-! ### Claim C8 and C10 theorems: topic extraction -/

theorem foundTopics_sublist (t : List Char) : List.Sublist (foundTopics t) topicNames :=
  (List.filter_sublist politicalKeywords).map Prod.fst

theorem extract_topics_sublist_or_umum (t : List Char) :
    List.Sublist (extract_topics_from_text t) topicNames ∨
      extract_topics_from_text t = ["umum"] := by
  unfold extract_topics_from_text
  by_cases h : (foundTopics t).isEmpty
  · right; simp [h]
  · left
    simp only [h, Bool.false_eq_true, if_false]
    exact (List.take_sublist 5 (foundTopics t)).trans (foundTopics_sublist t)

/-- Claim C10: for every input text, topic extraction returns a non-empty list of
at most 5 pairwise-distinct strings, each either one of the 8 fixed topic names
or `"umum"`, and (when not the `"umum"` default) the list is a sublist of the
fixed table order ekonomi, politik, sosial, hukum, teknologi, pendidikan,
kesehatan, lingkungan — so matched topics always appear in table order. -/
theorem topic_extraction_invariants (t : List Char) :
    extract_topics_from_text t ≠ [] ∧
    (extract_topics_from_text t).length ≤ 5 ∧
    (extract_topics_from_text t).Nodup ∧
    (∀ x ∈ extract_topics_from_text t, x ∈ topicNames ∨ x = "umum") ∧
    (List.Sublist (extract_topics_from_text t) topicNames ∨
      extract_topics_from_text t = ["umum"]) := by
  have hsub := extract_topics_sublist_or_umum t
  have hnames : topicNames.Nodup := by decide
  refine ⟨?_, ?_, ?_, ?_, hsub⟩
  · unfold extract_topics_from_text
    by_cases h : (foundTopics t).isEmpty
    · simp [h]
    · simp only [h, Bool.false_eq_true, if_false]
      cases hf : foundTopics t with
      | nil => rw [hf] at h; simp at h
      | cons y ys => simp [List.take]
  · unfold extract_topics_from_text
    by_cases h : (foundTopics t).isEmpty
    · simp [h]
    · simp only [h, Bool.false_eq_true, if_false]
      simp [List.length_take]
  · rcases hsub with h | h
    · exact h.nodup hnames
    · rw [h]; decide
  · intro x hx
    rcases hsub with h | h
    · exact Or.inl (h.subset hx)
    · rw [h] at hx
      simp only [List.mem_singleton] at hx
      exact Or.inr hx

/-- Claim C8: if the lowercased text contains "ekonomi" and "pajak", topic
extraction returns a list containing "ekonomi" with at most 5 entries; if the
lowercased text contains no keyword of the table, it returns exactly
`["umum"]`. -/
theorem topic_extraction_keywords :
    (∀ t : List Char, occursIn "ekonomi".data (lowerL t) = true →
      occursIn "pajak".data (lowerL t) = true →
      "ekonomi" ∈ extract_topics_from_text t ∧
        (extract_topics_from_text t).length ≤ 5) ∧
    (∀ t : List Char,
      (∀ kw ∈ (politicalKeywords.map Prod.snd).flatten, occursIn kw.data (lowerL t) = false) →
      extract_topics_from_text t = ["umum"]) := by
  constructor
  · intro t h1 _h2
    have hlen := (topic_extraction_invariants t).2.1
    refine ⟨?_, hlen⟩
    have hm : topicMatches t ("ekonomi",
        ["ekonomi", "keuangan", "investasi", "bisnis", "perdagangan", "inflasi",
          "pajak"]) = true := by
      simp [topicMatches, h1]
    have hf : ∃ rest, foundTopics t = "ekonomi" :: rest := by
      unfold foundTopics politicalKeywords
      rw [List.filter_cons, hm]
      exact ⟨_, rfl⟩
    obtain ⟨rest, hf⟩ := hf
    unfold extract_topics_from_text
    rw [hf]
    simp [List.take]
  · intro t h
    have hfilter : politicalKeywords.filter (topicMatches t) = [] := by
      rw [List.filter_eq_nil_iff]
      intro entry hentry
      simp only [topicMatches, List.any_eq_true]
      rintro ⟨kw, hkw, hocc⟩
      have : kw ∈ (politicalKeywords.map Prod.snd).flatten := by
        simp only [List.mem_flatten, List.mem_map]
        exact ⟨entry.2, ⟨entry, hentry, rfl⟩, hkw⟩
      rw [h kw this] at hocc
      exact Bool.false_ne_true hocc
    unfold extract_topics_from_text foundTopics
    rw [hfilter]
    simp

theorem topic_extraction_keywords_witness :
    ("ekonomi" ∈ extract_topics_from_text "Dampak pajak terhadap ekonomi".data ∧
      (extract_topics_from_text "Dampak pajak terhadap ekonomi".data).length ≤ 5) ∧
    extract_topics_from_text "zzz".data = ["umum"] :=
  ⟨topic_extraction_keywords.1 "Dampak pajak terhadap ekonomi".data
      (by decide) (by decide),
    topic_extraction_keywords.2 "zzz".data (by decide)⟩

/-! ### Claim C7 and C3 theorems: the error classifier -/

theorem findPattern_eq_none (e : List Char) :
    ∀ tbl : List (List Char × String × String),
      (∀ p ∈ tbl, occursIn p.1 e = false) → findPattern e tbl = none := by
  intro tbl
  induction tbl with
  | nil => intro _; rfl
  | cons entry rest ih =>
    intro h
    obtain ⟨p, m, s⟩ := entry
    have hp : occursIn p e = false := h (p, m, s) (List.mem_cons_self _ _)
    simp only [findPattern, hp, Bool.false_eq_true, if_false]
    exact ih (fun q hq => h q (List.mem_cons_of_mem _ hq))

/-- Claim C7: an error string in which none of the eight recognized keyword
patterns occurs (the code matches them against the lowercased string) and
none of the six HTTP status substrings occurs is classified with the generic
fallback message and suggestion. -/
theorem classifier_generic_fallback (s : List Char)
    (hpat : ∀ p ∈ errorPatterns, occursIn p.1 (lowerL s) = false)
    (h429 : occursIn "429".data s = false)
    (h500 : occursIn "500".data s = false)
    (h502 : occursIn "502".data s = false)
    (h503 : occursIn "503".data s = false)
    (h401 : occursIn "401".data s = false)
    (h403 : occursIn "403".data s = false) :
    parse_openai_error s = (fallbackMessage, fallbackSuggestion) := by
  have hfind := findPattern_eq_none (lowerL s) errorPatterns hpat
  simp [parse_openai_error, hfind, h429, h500, h502, h503, h401, h403]

theorem classifier_generic_fallback_witness :
    parse_openai_error "hello world".data = (fallbackMessage, fallbackSuggestion) :=
  classifier_generic_fallback "hello world".data (by decide) (by decide) (by decide)
    (by decide) (by decide) (by decide) (by decide)

/-- Counterexample to claim C3: the error string "insufficient_quota 429"
contains "429", yet the classifier returns the quota message, not the
rate-limit message, because the keyword scan matches "insufficient_quota"
first and the HTTP-code check never runs. -/
theorem rate_limit_counterexample :
    occursIn "429".data "insufficient_quota 429".data = true ∧
    parse_openai_error "insufficient_quota 429".data = (quotaMessage, quotaSuggestion) ∧
    (quotaMessage, quotaSuggestion) ≠ (rateLimitMessage, rateLimitSuggestion) :=
  ⟨rfl, rfl, by decide⟩

/-- Claim C3 (amended): every error string containing "429" or "rate_limit" is
classified retryable by the retryability check of the wrapper; the classifier returns the
rate-limit message and suggestion provided no earlier-matching pattern
intervenes — for a "rate_limit"-containing string the string must not contain
"insufficient_quota", and for a "429"-containing string none of the eight
keyword patterns may occur (the "429" status check runs only after the
keyword scan fails). -/
theorem rate_limit_classification_amended :
    (∀ s : List Char,
      occursIn "429".data s = true ∨ occursIn "rate_limit".data s = true →
      isRetryableError (lowerL s) = true) ∧
    (∀ s : List Char, occursIn "rate_limit".data s = true →
      occursIn "insufficient_quota".data (lowerL s) = false →
      parse_openai_error s = (rateLimitMessage, rateLimitSuggestion)) ∧
    (∀ s : List Char, occursIn "429".data s = true →
      (∀ p ∈ errorPatterns, occursIn p.1 (lowerL s) = false) →
      parse_openai_error s = (rateLimitMessage, rateLimitSuggestion)) := by
  refine ⟨?_, ?_, ?_⟩
  · intro s h
    simp only [isRetryableError, retryableKeywords, List.any_eq_true]
    rcases h with h | h
    · exact ⟨"429".data, by decide, occursIn_lower_429 s h⟩
    · exact ⟨"rate_limit".data, by decide, occursIn_lower_rate_limit s h⟩
  · intro s hrl hquota
    have hrl' : occursIn "rate_limit".data (lowerL s) = true :=
      occursIn_lower_rate_limit s hrl
    simp [parse_openai_error, errorPatterns, findPattern, hquota, hrl']
  · intro s h429 hpat
    have hfind := findPattern_eq_none (lowerL s) errorPatterns hpat
    simp [parse_openai_error, hfind, h429]

theorem rate_limit_classification_amended_witness :
    isRetryableError (lowerL "Error 429".data) = true ∧
    parse_openai_error "rate_limit hit".data = (rateLimitMessage, rateLimitSuggestion) ∧
    parse_openai_error "HTTP 429".data = (rateLimitMessage, rateLimitSuggestion) :=
  ⟨rate_limit_classification_amended.1 "Error 429".data (Or.inl (by decide)),
    rate_limit_classification_amended.2.1 "rate_limit hit".data (by decide) (by decide),
    rate_limit_classification_amended.2.2 "HTTP 429".data (by decide) (by decide)⟩

/-! ### Claim C4 theorem: `format_analysis_response` defaults -/

/-- Claim C4: for every JSON object given to `format_analysis_response`, each
required key that is present appears unchanged in the output and each absent
key is replaced by its documented default — the neutral sentiment (label
"netral", score 0.5), empty lists for topics/entities/key_issues,
`bias_detected = false`, and `public_impact = "medium"` (`Option.getD` states
exactly this: `some v` maps to `v`, `none` to the default). -/
theorem format_analysis_defaults (now : ℚ) (d : AnalysisData) :
    (format_analysis_response now d).sentiment = d.sentiment.getD neutralSentiment ∧
    (format_analysis_response now d).topics = d.topics.getD [] ∧
    (format_analysis_response now d).entities = d.entities.getD [] ∧
    (format_analysis_response now d).key_issues = d.key_issues.getD [] ∧
    (format_analysis_response now d).bias_detected = d.bias_detected.getD false ∧
    (format_analysis_response now d).public_impact = d.public_impact.getD "medium" := by
  unfold format_analysis_response
  by_cases h : d.isFalsy
  · have hfields := h
    simp only [AnalysisData.isFalsy, Bool.and_eq_true, Option.isNone_iff_eq_none] at hfields
    obtain ⟨⟨⟨⟨⟨⟨h1, h2⟩, h3⟩, h4⟩, h5⟩, h6⟩, _h7⟩ := hfields
    simp [h, h1, h2, h3, h4, h5, h6]
  · simp [h]

/-! ### Claim C5 theorem: the composite-analysis pipeline -/

/-- Claim C5: in the `/complete-analysis` pipeline, if analysis and insight
extraction succeed but the narrative stage returns an error (while the policy
stage would succeed), the response is the 500 narrative failure and the
policy-recommendation operation is never invoked; and if the first three
stages succeed, the policy stage is invoked and fails, the pipeline still
returns the 200 success response with the policy error embedded as the
`recommendations` value. -/
theorem complete_pipeline_stages (t : String) (pc : Option String)
    (aRes iRes nRes pRes : StageRes) (ht : t.isEmpty = false) :
    (aRes.error = none → iRes.error = none → pRes.error = none →
      ∀ e, nRes.error = some e →
        (complete_analysis_route (some t) pc aRes iRes nRes pRes).resp =
          CompleteResp.failure 500 ("Narrative generation failed: " ++ e) ∧
        (complete_analysis_route (some t) pc aRes iRes nRes pRes).policyCalled = false) ∧
    (aRes.error = none → iRes.error = none → nRes.error = none →
      policyStageCondition pc iRes = true →
      ∀ pe, pRes.error = some pe →
        (complete_analysis_route (some t) pc aRes iRes nRes pRes).resp =
          CompleteResp.success (some ⟨some pe, none⟩) ∧
        (complete_analysis_route (some t) pc aRes iRes nRes pRes).policyCalled = true) := by
  constructor
  · intro ha hi hp e hn
    simp [complete_analysis_route, ht, ha, hi, hn]
  · intro ha hi hn hcond pe hp
    simp [complete_analysis_route, ht, ha, hi, hn, hcond, hp]

theorem complete_pipeline_stages_witness :
    ((complete_analysis_route (some "teks") none ⟨none, none⟩ ⟨none, none⟩
        ⟨some "narasi gagal", none⟩ ⟨none, none⟩).resp =
      CompleteResp.failure 500 ("Narrative generation failed: " ++ "narasi gagal") ∧
      (complete_analysis_route (some "teks") none ⟨none, none⟩ ⟨none, none⟩
        ⟨some "narasi gagal", none⟩ ⟨none, none⟩).policyCalled = false) ∧
    ((complete_analysis_route (some "teks") (some "konteks") ⟨none, none⟩
        ⟨none, some ["isu"]⟩ ⟨none, none⟩ ⟨some "policy gagal", none⟩).resp =
      CompleteResp.success (some ⟨some "policy gagal", none⟩) ∧
      (complete_analysis_route (some "teks") (some "konteks") ⟨none, none⟩
        ⟨none, some ["isu"]⟩ ⟨none, none⟩ ⟨some "policy gagal", none⟩).policyCalled = true) :=
  ⟨complete_pipeline_stages "teks" none ⟨none, none⟩ ⟨none, none⟩
      ⟨some "narasi gagal", none⟩ ⟨none, none⟩ (by decide) |>.1
      rfl rfl rfl "narasi gagal" rfl,
    complete_pipeline_stages "teks" (some "konteks") ⟨none, none⟩
      ⟨none, some ["isu"]⟩ ⟨none, none⟩ ⟨some "policy gagal", none⟩ (by decide) |>.2
      rfl rfl rfl (by decide) "policy gagal" rfl⟩

/-! ### Claim C6 theorems: `clean_text` -/

theorem joinWords_cons_length (w : List Char) (ws : List (List Char)) :
    (joinWords (w :: ws)).length ≤ w.length + 1 + (joinWords ws).length := by
  cases ws with
  | nil => simp [joinWords]
  | cons w2 ws2 => simp [joinWords]; omega

theorem wordsAux_length : ∀ (l acc : List Char),
    (joinWords (wordsAux acc l)).length ≤ acc.length + l.length := by
  intro l
  induction l with
  | nil =>
    intro acc
    by_cases h : acc.isEmpty
    · simp [wordsAux, h, joinWords]
    · simp [wordsAux, h, joinWords]
  | cons c cs ih =>
    intro acc
    simp only [wordsAux]
    by_cases hc : pyIsSpace c
    · simp only [hc, if_true]
      by_cases ha : acc.isEmpty
      · simp only [ha, if_true]
        have := ih []
        simp only [List.length_nil, Nat.zero_add] at this
        calc (joinWords (wordsAux [] cs)).length ≤ cs.length := this
          _ ≤ acc.length + (c :: cs).length := by simp [List.length_cons]; omega
      · simp only [ha, Bool.false_eq_true, if_false]
        calc (joinWords (acc.reverse :: wordsAux [] cs)).length
            ≤ acc.reverse.length + 1 + (joinWords (wordsAux [] cs)).length :=
              joinWords_cons_length _ _
          _ ≤ acc.length + 1 + cs.length := by
              have := ih []
              simp only [List.length_nil, Nat.zero_add] at this
              simp only [List.length_reverse]
              omega
          _ = acc.length + (c :: cs).length := by simp [List.length_cons]; omega
    · simp only [hc, Bool.false_eq_true, if_false]
      calc (joinWords (wordsAux (c :: acc) cs)).length
          ≤ (c :: acc).length + cs.length := ih (c :: acc)
        _ = acc.length + (c :: cs).length := by simp [List.length_cons]; omega

theorem pyCollapse_length_le (l : List Char) : (pyCollapse l).length ≤ l.length := by
  have := wordsAux_length l []
  simpa [pyCollapse, pyWords] using this

theorem wordsAux_nospace : ∀ (l acc : List Char), (∀ c ∈ l, pyIsSpace c = false) →
    wordsAux acc l = if acc.isEmpty && l.isEmpty then [] else [acc.reverse ++ l] := by
  intro l
  induction l with
  | nil =>
    intro acc _
    by_cases h : acc.isEmpty
    · simp [wordsAux, h]
    · simp [wordsAux, h]
  | cons c cs ih =>
    intro acc h
    have hc : pyIsSpace c = false := h c (List.mem_cons_self c cs)
    simp only [wordsAux, hc, Bool.false_eq_true, if_false]
    rw [ih (c :: acc) (fun d hd => h d (List.mem_cons_of_mem c hd))]
    simp [List.reverse_cons, List.append_assoc]

theorem pyCollapse_nospace (l : List Char) (h : ∀ c ∈ l, pyIsSpace c = false) :
    pyCollapse l = l := by
  unfold pyCollapse pyWords
  rw [wordsAux_nospace l [] h]
  cases l with
  | nil => simp [joinWords]
  | cons c cs => simp [joinWords]

theorem dropWhile_all_false (p : Char → Bool) (l : List Char)
    (h : ∀ c ∈ l, p c = false) : l.dropWhile p = l := by
  cases l with
  | nil => rfl
  | cons c cs =>
    have hc : p c = false := h c (List.mem_cons_self c cs)
    simp [List.dropWhile_cons, hc]

theorem pyStrip_nospace (l : List Char) (h : ∀ c ∈ l, pyIsSpace c = false) :
    pyStrip l = l := by
  unfold pyStrip
  rw [dropWhile_all_false pyIsSpace l h]
  rw [dropWhile_all_false pyIsSpace l.reverse (fun c hc => h c (List.mem_reverse.mp hc))]
  exact List.reverse_reverse l

theorem wordsAux_space_run : ∀ n, wordsAux [] (List.replicate n ' ') = [] := by
  intro n
  induction n with
  | zero => rfl
  | succ k ih => simp only [List.replicate_succ, wordsAux]; norm_num [pyIsSpace, ih]

theorem wordsAux_acc_space (n : Nat) (acc : List Char) (h : acc.isEmpty = false) :
    wordsAux acc (List.replicate n ' ') = [acc.reverse] := by
  cases n with
  | zero => simp [wordsAux, h]
  | succ k =>
    simp only [List.replicate_succ, wordsAux]
    norm_num [pyIsSpace, h, wordsAux_space_run]

theorem wordsAux_cons (acc : List Char) (c : Char) (cs : List Char) :
    wordsAux acc (c :: cs) =
      if pyIsSpace c then
        (if acc.isEmpty then wordsAux [] cs else acc.reverse :: wordsAux [] cs)
      else wordsAux (c :: acc) cs := rfl

def mostlySpaceInput : List Char := 'a' :: List.replicate 10999 ' '

/-- Counterexample to claim C6: the 11000-character string consisting of "a"
followed by 10999 spaces is not truncated — `clean_text` collapses whitespace
first, reducing it to "a", and then raises the too-short validation error. -/
theorem clean_text_counterexample :
    mostlySpaceInput.length = 11000 ∧
    clean_text mostlySpaceInput = Except.error ⟨tooShortMessage, tooShortTechnical 1⟩ := by
  have hcol : pyCollapse mostlySpaceInput = ['a'] := by
    show pyCollapse ('a' :: List.replicate 10999 ' ') = ['a']
    unfold pyCollapse pyWords
    rw [wordsAux_cons]
    have ha : pyIsSpace 'a' = false := by decide
    rw [ha]
    simp only [Bool.false_eq_true, if_false]
    rw [wordsAux_acc_space 10999 ['a'] rfl]
    rfl
  have hne : mostlySpaceInput.isEmpty = false := rfl
  constructor
  · show ('a' :: List.replicate 10999 ' ').length = 11000
    rw [List.length_cons, List.length_replicate]
  · have hlt : (pyCollapse mostlySpaceInput).length < 10 := by rw [hcol]; norm_num
    simp only [clean_text, hne, Bool.false_eq_true, if_false]
    rw [if_pos hlt, hcol]
    rfl

/-- Claim C6 (amended): every 9-character input raises the validation error
citing the 10-character minimum (its technical detail reporting the
whitespace-collapsed length); every 11000-character input **containing no
whitespace** is returned as its first 10000 characters followed by the "..."
marker.  (An 11000-character input whose whitespace-collapsed form drops below
the thresholds is instead rejected or returned untruncated, as the
counterexample shows.) -/
theorem clean_text_bounds_amended :
    (∀ l : List Char, l.length = 9 →
      clean_text l =
        Except.error ⟨tooShortMessage, tooShortTechnical (pyCollapse l).length⟩) ∧
    (∀ l : List Char, l.length = 11000 → (∀ c ∈ l, pyIsSpace c = false) →
      clean_text l = Except.ok (l.take 10000 ++ "...".data)) := by
  constructor
  · intro l hl
    have hne : l.isEmpty = false := by
      cases l with
      | nil => simp at hl
      | cons c cs => rfl
    have hlt : (pyCollapse l).length < 10 :=
      lt_of_le_of_lt (le_trans (pyCollapse_length_le l) (le_of_eq hl)) (by norm_num)
    simp only [clean_text, hne, Bool.false_eq_true, if_false]
    rw [if_pos hlt]
  · intro l hl hns
    have hne : l.isEmpty = false := by
      cases l with
      | nil => simp at hl
      | cons c cs => rfl
    have hcol : pyCollapse l = l := pyCollapse_nospace l hns
    have h10 : ¬ (pyCollapse l).length < 10 := by rw [hcol, hl]; norm_num
    have hbig : (pyCollapse l).length > 10000 := by rw [hcol, hl]; norm_num
    simp only [clean_text, hne, Bool.false_eq_true, if_false]
    rw [if_neg h10, if_pos hbig, hcol]
    congr 1
    apply pyStrip_nospace
    intro c hc
    rcases List.mem_append.mp hc with h | h
    · exact hns c (List.mem_of_mem_take h)
    · have : c = '.' := by simpa using h
      rw [this]; rfl

theorem clean_text_bounds_amended_witness :
    clean_text "abcdefghi".data =
      Except.error ⟨tooShortMessage, tooShortTechnical (pyCollapse "abcdefghi".data).length⟩ ∧
    clean_text (List.replicate 11000 'a') =
      Except.ok ((List.replicate 11000 'a').take 10000 ++ "...".data) :=
  ⟨clean_text_bounds_amended.1 "abcdefghi".data (by decide),
    clean_text_bounds_amended.2 (List.replicate 11000 'a')
      (List.length_replicate 11000 'a')
      (fun c hc => by rw [List.eq_of_mem_replicate hc]; rfl)⟩

/-! ### Claim C1 and C2 theorems: the retry wrapper -/

theorem retryAux_calls_le (cfg : RetryCfg) (op : Nat → Except String String) (js : Nat → ℚ) :
    ∀ (remaining : Nat) (last : Option String) (attempt : Nat) (delay : ℚ),
      (retryAux cfg op js last attempt delay remaining).calls ≤ remaining := by
  intro remaining
  induction remaining with
  | zero => intro last attempt delay; simp [retryAux]
  | succ r ih =>
    intro last attempt delay
    simp only [retryAux]
    cases hop : op attempt with
    | ok v => simp
    | error e =>
      by_cases hc : isRetryableError (lowerL e.data) && decide (attempt < cfg.max_retries - 1)
      · simp only [hc, if_true]
        have := ih (some e) (attempt + 1) (delay * cfg.exponential_base)
        omega
      · simp only [hc, Bool.false_eq_true, if_false]
        omega

theorem retryAux_succ (cfg : RetryCfg) (op : Nat → Except String String) (js : Nat → ℚ)
    (last : Option String) (attempt : Nat) (delay : ℚ) (remaining : Nat) :
    retryAux cfg op js last attempt delay (remaining + 1) =
      match op attempt with
      | Except.ok v => ⟨Except.ok v, 1, []⟩
      | Except.error e =>
        if isRetryableError (lowerL e.data) && decide (attempt < cfg.max_retries - 1) then
          let rest := retryAux cfg op js (some e) (attempt + 1)
            (delay * cfg.exponential_base) remaining
          ⟨rest.result, rest.calls + 1,
            (delay + (if cfg.jitter then js attempt else 0)) :: rest.sleeps⟩
        else ⟨Except.error ⟨(parse_openai_error e.data).1, e⟩, 1, []⟩ := rfl

theorem retryAux_all_retryable (cfg : RetryCfg) (op : Nat → Except String String)
    (js : Nat → ℚ)
    (hop : ∀ k, ∃ e, op k = Except.error e ∧ isRetryableError (lowerL e.data) = true) :
    ∀ (n : Nat) (last : Option String) (attempt : Nat) (delay : ℚ),
      attempt + (n + 1) = cfg.max_retries →
      (retryAux cfg op js last attempt delay (n + 1)).calls = n + 1 ∧
      (retryAux cfg op js last attempt delay (n + 1)).sleeps =
        (List.range n).map (fun i => delay * cfg.exponential_base ^ i +
          (if cfg.jitter then js (attempt + i) else 0)) ∧
      ∃ e, op (cfg.max_retries - 1) = Except.error e ∧
        (retryAux cfg op js last attempt delay (n + 1)).result =
          Except.error ⟨(parse_openai_error e.data).1, e⟩ := by
  intro n
  induction n with
  | zero =>
    intro last attempt delay hsum
    obtain ⟨e, he, hr⟩ := hop attempt
    have hattd : decide (attempt < cfg.max_retries - 1) = false :=
      decide_eq_false (by omega)
    have hlast : cfg.max_retries - 1 = attempt := by omega
    rw [retryAux_succ, he]
    simp only [hr, hattd, Bool.and_false, Bool.false_eq_true, if_false]
    refine ⟨by trivial, by simp, e, ?_, by trivial⟩
    rw [hlast]
    exact he
  | succ m ih =>
    intro last attempt delay hsum
    obtain ⟨e, he, hr⟩ := hop attempt
    have hattd : decide (attempt < cfg.max_retries - 1) = true :=
      decide_eq_true (by omega)
    have ihm := ih (some e) (attempt + 1) (delay * cfg.exponential_base) (by omega)
    rw [retryAux_succ, he]
    simp only [hr, hattd, Bool.and_self, if_true]
    refine ⟨?_, ?_, ?_⟩
    · rw [ihm.1]
    · rw [ihm.2.1, List.range_succ_eq_map, List.map_cons, List.map_map]
      congr 1
      · simp
      · refine List.map_congr_left (fun i _ => ?_)
        simp only [Function.comp_apply, Nat.succ_eq_add_one]
        have harg : attempt + 1 + i = attempt + (i + 1) := by omega
        rw [pow_succ, harg]
        ring
    · obtain ⟨e1, he1, hres⟩ := ihm.2.2
      exact ⟨e1, he1, hres⟩

def ceOp : Nat → Except String String := fun _ => Except.error "429"

def ceJs : Nat → ℚ := fun k => if k = 0 then 1 / 20 else 0

def ceCfg : RetryCfg := ⟨3, 1, 2, true⟩

/-- Counterexample to claim C1: with `max_retries = 3`, `initial_delay = 1`,
`exponential_base = 2` and jitter enabled (the decorator default), an
admissible draw of `random.uniform(0, delay * 0.1)` — here 1/20 on the first
attempt and 0 on the second — makes the two sleeps 21/20 and 2, whose ratio
is not `exponential_base`. -/
theorem retry_jitter_ratio_counterexample :
    (0 ≤ ceJs 0 ∧ ceJs 0 ≤ ceCfg.initial_delay * (1 / 10)) ∧ ceJs 1 = 0 ∧
    (retry_with_exponential_backoff ceCfg ceOp ceJs).sleeps = [21 / 20, 2] ∧
    ¬ ((2 : ℚ) = (21 / 20) * 2) := by
  refine ⟨⟨by norm_num [ceJs], by norm_num [ceJs, ceCfg]⟩, by norm_num [ceJs], ?_, by norm_num⟩
  have h := retryAux_all_retryable ceCfg ceOp ceJs
    (fun k => ⟨"429", rfl, by decide⟩) 2 none 0 ceCfg.initial_delay rfl
  show (retryAux ceCfg ceOp ceJs none 0 ceCfg.initial_delay 3).sleeps = [21 / 20, 2]
  rw [h.2.1]
  have hr2 : List.range 2 = [0, 1] := rfl
  rw [hr2, List.map_cons, List.map_cons, List.map_nil]
  norm_num [ceCfg, ceJs]

/-- Claim C1 (amended): the wrapper invokes the operation at most `max_retries`
times; for a configuration with `max_retries ≥ 1`, `initial_delay > 0`,
`exponential_base > 1` and an operation raising a retryable error on every
attempt, it sleeps exactly `max_retries - 1` times, the k-th sleep being
`initial_delay · exponential_base^k` plus the jitter draw for attempt k (zero
when jitter is disabled), before raising a classified error; with jitter
disabled the sleeps are strictly increasing and each sleep is the previous one
times exactly `exponential_base`.  (With jitter enabled the exact-ratio part
of the original claim fails, as the counterexample shows.) -/
theorem retry_backoff_amended :
    (∀ (cfg : RetryCfg) (op : Nat → Except String String) (js : Nat → ℚ),
      (retry_with_exponential_backoff cfg op js).calls ≤ cfg.max_retries) ∧
    (∀ (cfg : RetryCfg) (op : Nat → Except String String) (js : Nat → ℚ),
      1 ≤ cfg.max_retries → 0 < cfg.initial_delay → 1 < cfg.exponential_base →
      (∀ k, ∃ e, op k = Except.error e ∧ isRetryableError (lowerL e.data) = true) →
      (retry_with_exponential_backoff cfg op js).sleeps.length = cfg.max_retries - 1 ∧
      (retry_with_exponential_backoff cfg op js).sleeps =
        (List.range (cfg.max_retries - 1)).map
          (fun i => cfg.initial_delay * cfg.exponential_base ^ i +
            (if cfg.jitter then js i else 0)) ∧
      (∃ e, op (cfg.max_retries - 1) = Except.error e ∧
        (retry_with_exponential_backoff cfg op js).result =
          Except.error ⟨(parse_openai_error e.data).1, e⟩) ∧
      (cfg.jitter = false →
        List.Chain' (· < ·) (retry_with_exponential_backoff cfg op js).sleeps ∧
        ∀ i, i + 1 < (retry_with_exponential_backoff cfg op js).sleeps.length →
          (retry_with_exponential_backoff cfg op js).sleeps[i + 1]? =
            ((retry_with_exponential_backoff cfg op js).sleeps[i]?).map
              (· * cfg.exponential_base))) := by
  constructor
  · intro cfg op js
    exact retryAux_calls_le cfg op js cfg.max_retries none 0 cfg.initial_delay
  · intro cfg op js hmr hd0 hbase hop
    obtain ⟨n, hn⟩ : ∃ n, cfg.max_retries = n + 1 := ⟨cfg.max_retries - 1, by omega⟩
    have hrun : retry_with_exponential_backoff cfg op js =
        retryAux cfg op js none 0 cfg.initial_delay (n + 1) := by
      rw [retry_with_exponential_backoff, hn]
    have h := retryAux_all_retryable cfg op js hop n none 0 cfg.initial_delay (by omega)
    have hsleeps : (retry_with_exponential_backoff cfg op js).sleeps =
        (List.range (cfg.max_retries - 1)).map
          (fun i => cfg.initial_delay * cfg.exponential_base ^ i +
            (if cfg.jitter then js i else 0)) := by
      rw [hrun, h.2.1, hn]
      simp only [Nat.add_sub_cancel, Nat.zero_add]
    refine ⟨?_, hsleeps, ?_, ?_⟩
    · rw [hsleeps, List.length_map, List.length_range]
    · obtain ⟨e, he, hres⟩ := h.2.2
      exact ⟨e, he, by rw [hrun]; exact hres⟩
    · intro hjf
      have hb0 : (0 : ℚ) < cfg.exponential_base := lt_trans zero_lt_one hbase
      have hsleeps' : (retry_with_exponential_backoff cfg op js).sleeps =
          (List.range (cfg.max_retries - 1)).map
            (fun i => cfg.initial_delay * cfg.exponential_base ^ i) := by
        rw [hsleeps, hjf]
        simp
      constructor
      · rw [hsleeps']
        rw [List.chain'_map]
        cases hcase : cfg.max_retries - 1 with
        | zero => simp
        | succ k =>
          rw [List.chain'_range_succ]
          intro i _
          have hpow : cfg.exponential_base ^ i < cfg.exponential_base ^ (i + 1) := by
            rw [pow_succ]
            calc cfg.exponential_base ^ i = cfg.exponential_base ^ i * 1 := by ring
              _ < cfg.exponential_base ^ i * cfg.exponential_base :=
                mul_lt_mul_of_pos_left hbase (pow_pos hb0 i)
          exact mul_lt_mul_of_pos_left hpow hd0
      · intro i hi
        rw [hsleeps'] at hi ⊢
        rw [List.length_map, List.length_range] at hi
        rw [List.getElem?_map, List.getElem?_map, List.getElem?_range hi,
          List.getElem?_range (by omega)]
        simp only [Option.map_some']
        rw [pow_succ]
        ring_nf

theorem retry_backoff_amended_witness :
    (retry_with_exponential_backoff ⟨3, 1, 2, false⟩ ceOp ceJs).calls ≤ 3 ∧
    (retry_with_exponential_backoff ⟨3, 1, 2, false⟩ ceOp ceJs).sleeps.length = 3 - 1 :=
  ⟨retry_backoff_amended.1 ⟨3, 1, 2, false⟩ ceOp ceJs,
    (retry_backoff_amended.2 ⟨3, 1, 2, false⟩ ceOp ceJs (by decide) (by decide) (by decide)
      (fun _ => ⟨"429", rfl, by decide⟩)).1⟩

/-- Claim C2 (code bug): for every configuration with `max_retries ≥ 1` and an
operation that raises a retryable error on every attempt, the classified error
finally raised carries the classifier message for the last error unchanged —
the raise happens on the final attempt inside the loop (utils.py line 110), so
the post-loop raise that appends the retry count (utils.py lines 112-117) is
unreachable.  Concretely, with the always-"429" operation and `max_retries =
3` the raised message is the bare rate-limit message, which differs from the
count-appending message the claim (and the dead block) describes. -/
theorem retry_exhaustion_message_bug :
    (∀ (cfg : RetryCfg) (op : Nat → Except String String) (js : Nat → ℚ),
      1 ≤ cfg.max_retries →
      (∀ k, ∃ e, op k = Except.error e ∧ isRetryableError (lowerL e.data) = true) →
      ∃ e, op (cfg.max_retries - 1) = Except.error e ∧
        (retry_with_exponential_backoff cfg op js).result =
          Except.error ⟨(parse_openai_error e.data).1, e⟩) ∧
    (retry_with_exponential_backoff ⟨3, 1, 2, false⟩ ceOp ceJs).result =
      Except.error ⟨rateLimitMessage, "429"⟩ ∧
    rateLimitMessage ≠ rateLimitMessage ++ " Sudah dicoba 3 kali." := by
  refine ⟨?_, rfl, by decide⟩
  intro cfg op js hmr hop
  obtain ⟨n, hn⟩ : ∃ n, cfg.max_retries = n + 1 := ⟨cfg.max_retries - 1, by omega⟩
  have hrun : retry_with_exponential_backoff cfg op js =
      retryAux cfg op js none 0 cfg.initial_delay (n + 1) := by
    rw [retry_with_exponential_backoff, hn]
  have h := retryAux_all_retryable cfg op js hop n none 0 cfg.initial_delay (by omega)
  obtain ⟨e, he, hres⟩ := h.2.2
  exact ⟨e, he, by rw [hrun]; exact hres⟩

theorem retry_exhaustion_message_bug_witness :
    ∃ e, ceOp (3 - 1) = Except.error e ∧
      (retry_with_exponential_backoff ⟨3, 1, 2, false⟩ ceOp ceJs).result =
        Except.error ⟨(parse_openai_error e.data).1, e⟩ :=
  retry_exhaustion_message_bug.1 ⟨3, 1, 2, false⟩ ceOp ceJs (by decide)
    (fun _ => ⟨"429", rfl, by decide⟩)

/-! ### Claim C9 theorem: error shape of the public reasoner operations -/

theorem analyzeShapeAux (text : String) (o : AnalyzeOracle) :
    (analyzeFails text o = true ↔ (analyze_political_text text o).status = some "error") ∧
    (analyzeFails text o = true → (analyze_political_text text o).error.isSome = true) := by
  have hne : ("success" : String) ≠ "error" := by decide
  unfold analyze_political_text analyzeFails
  cases hv : validateTextField text with
  | error e => simp [errDict, Except.isOk, Except.toBool]
  | ok u =>
    cases hc : clean_text text.data with
    | error e => simp [errDict, Except.isOk, Except.toBool]
    | ok cl =>
      cases hreq : o.req with
      | error e => simp [errDict, Except.isOk, Except.toBool]
      | ok response =>
        by_cases hb : startsWithBrace response.data
        · by_cases hj : o.jsonParses
          · simp [hb, hj, hne, Except.isOk, Except.toBool]
          · by_cases hs : (pyStrip response.data).isEmpty
            · simp [hb, hj, hs, structureResponse, Except.isOk, Except.toBool]
            · simp [hb, hj, hs, structureResponse, hne, Except.isOk, Except.toBool]
        · by_cases hs : (pyStrip response.data).isEmpty
          · simp [hb, hs, structureResponse, Except.isOk, Except.toBool]
          · simp [hb, hs, structureResponse, hne, Except.isOk, Except.toBool]

theorem narrativeShapeAux (analysisError : Option String) (req : Except UFErr String) :
    (narrativeFails analysisError req = true ↔
      (generate_narrative analysisError req).status = some "error") ∧
    (narrativeFails analysisError req = true →
      (generate_narrative analysisError req).error.isSome = true) := by
  have hne : ("success" : String) ≠ "error" := by decide
  unfold generate_narrative narrativeFails
  cases analysisError with
  | some e => simp [errDict]
  | none =>
    cases hreq : req with
    | error e => simp [errDict]
    | ok response =>
      by_cases hshort : response.isEmpty || decide ((pyStrip response.data).length < 50)
      · simp only [hshort, if_true]
        simp [errDict]
      · simp only [hshort, Bool.false_eq_true, if_false]
        simp only [Bool.or_eq_true, decide_eq_true_eq] at hshort
        push_neg at hshort
        simp [hshort.1, hshort.2, hne]

theorem policyShapeAux (context issue : String) (o : PolicyOracle) :
    (policyFails context issue o = true ↔
      (generate_policy_recommendations context issue o).status = some "error") ∧
    (policyFails context issue o = true →
      (generate_policy_recommendations context issue o).error.isSome = true) := by
  have hne : ("success" : String) ≠ "error" := by decide
  unfold generate_policy_recommendations policyFails
  cases hv : validateContextIssueFields context issue with
  | error e => simp [errDict, Except.isOk, Except.toBool]
  | ok u =>
    cases hc : clean_text context.data with
    | error e => simp [errDict, Except.isOk, Except.toBool]
    | ok cl =>
      cases hi : clean_text issue.data with
      | error e => simp [errDict, Except.isOk, Except.toBool]
      | ok cli =>
        cases hreq : o.req with
        | error e => simp [errDict, Except.isOk, Except.toBool]
        | ok response =>
          by_cases hb : startsWithBrace response.data && o.jsonParses
          · simp [hb, hne, Except.isOk, Except.toBool]
          · simp [hb, hne, Except.isOk, Except.toBool]

theorem chatShapeAux (question : String) (ctx : Option PyRes) (req : Except UFErr String) :
    (chatFails question req = true ↔ (chat_response question ctx req).status = some "error") ∧
    (chatFails question req = true → (chat_response question ctx req).error.isSome = true) := by
  have hne : ("success" : String) ≠ "error" := by decide
  unfold chat_response chatFails
  cases hv : validateQuestionField question with
  | error e => simp [errDict, Except.isOk, Except.toBool]
  | ok u =>
    cases hc : clean_text question.data with
    | error e => simp [errDict, Except.isOk, Except.toBool]
    | ok cl =>
      cases hreq : req with
      | error e => simp [errDict, Except.isOk, Except.toBool]
      | ok response =>
        by_cases hshort : response.isEmpty || decide ((pyStrip response.data).length < 10)
        · simp only [hshort, if_true]
          simp [errDict, Except.isOk, Except.toBool]
        · simp only [hshort, Bool.false_eq_true, if_false]
          simp only [Bool.or_eq_true, decide_eq_true_eq] at hshort
          push_neg at hshort
          simp [hshort.1, hshort.2, hne, Except.isOk, Except.toBool]

/-- Claim C9: each public `PoliticalReasoner` operation is total at its
interface — in the embedding it is a total function into a result dictionary —
and an operation run fails (input validation fails, the protected OpenAI call
raises, or the response-shape checks reject the content) exactly when the
returned dictionary carries `"status" = "error"`, in which case it also
carries an `"error"` key with the user-facing message. -/
theorem reasoner_ops_error_shape :
    (∀ (text : String) (o : AnalyzeOracle),
      (analyzeFails text o = true ↔ (analyze_political_text text o).status = some "error") ∧
      (analyzeFails text o = true → (analyze_political_text text o).error.isSome = true)) ∧
    (∀ (analysisError : Option String) (req : Except UFErr String),
      (narrativeFails analysisError req = true ↔
        (generate_narrative analysisError req).status = some "error") ∧
      (narrativeFails analysisError req = true →
        (generate_narrative analysisError req).error.isSome = true)) ∧
    (∀ (context issue : String) (o : PolicyOracle),
      (policyFails context issue o = true ↔
        (generate_policy_recommendations context issue o).status = some "error") ∧
      (policyFails context issue o = true →
        (generate_policy_recommendations context issue o).error.isSome = true)) ∧
    (∀ (question : String) (ctx : Option PyRes) (req : Except UFErr String),
      (chatFails question req = true ↔ (chat_response question ctx req).status = some "error") ∧
      (chatFails question req = true → (chat_response question ctx req).error.isSome = true)) :=
  ⟨analyzeShapeAux, narrativeShapeAux, policyShapeAux, chatShapeAux⟩

theorem reasoner_ops_error_shape_witness :
    (analyze_political_text "" ⟨Except.ok "halo", true⟩).status = some "error" ∧
    (analyze_political_text "" ⟨Except.ok "halo", true⟩).error.isSome = true :=
  ⟨(reasoner_ops_error_shape.1 "" ⟨Except.ok "halo", true⟩).1.mp (by decide),
    (reasoner_ops_error_shape.1 "" ⟨Except.ok "halo", true⟩).2 (by decide)⟩

theorem topic_extraction_invariants_witness :
    extract_topics_from_text "tidak ada kata kunci".data ≠ [] ∧
    (extract_topics_from_text "tidak ada kata kunci".data).length ≤ 5 :=
  ⟨(topic_extraction_invariants "tidak ada kata kunci".data).1,
    (topic_extraction_invariants "tidak ada kata kunci".data).2.1⟩
